import Mathlib

/-!
Verification development for the cargo-tracking backend.

The Python sources under `backend/` are shallowly embedded below:
pure, executable Lean definitions mirror `auth.py` (password hashing via
bcrypt, JWT issue/decode, the `get_current_user` dependency), `crud.py`
(user creation, track assignment, admin upsert, archival), the timeline
derivation of `main.py`, and the ordered FastAPI route table of `main.py`.
Stateful database access becomes explicit state passing over lists of
records; exceptions become `Except`; `datetime.utcnow()` becomes an
explicit `now` argument.  The bcrypt Blowfish digest and the HMAC of the
JWT library are third-party primitives outside the repository; they enter
as explicit function parameters (`digest`, `mac`), while the parts of
their behaviour the repository relies on (hash format, 72-byte password
truncation, NUL rejection, salt embedding) are modelled concretely from
the bcrypt library's documented interface.
-/

/-! ## Byte-level helpers: Python `str.encode("utf-8")` -/

/-- UTF-8 encoding of a single Unicode code point, as Python's
`str.encode('utf-8')` produces for each character. -/
def utf8EncodeCodePoint (n : Nat) : List Nat :=
  if n < 0x80 then [n]
  else if n < 0x800 then [0xC0 + n / 64, 0x80 + n % 64]
  else if n < 0x10000 then
    [0xE0 + n / 4096, 0x80 + (n / 64) % 64, 0x80 + n % 64]
  else
    [0xF0 + n / 262144, 0x80 + (n / 4096) % 64, 0x80 + (n / 64) % 64, 0x80 + n % 64]

deriving instance DecidableEq for Except

/-- Python `s.encode('utf-8')`: the byte sequence of a string. -/
def utf8Bytes (s : String) : List Nat :=
  (s.data.map (fun c => utf8EncodeCodePoint c.toNat)).flatten

/-! ## bcrypt model (`auth.py` uses the `bcrypt` package directly)

A stored bcrypt digest is the 60-character string
`$2<minor>$<2-digit cost>$<22 salt chars><31 digest chars>` over the
bcrypt base-64 alphabet.  `bcrypt.hashpw` truncates the password to its
first 72 bytes, rejects NUL bytes, parses the salt prefix of its second
argument (raising `ValueError "Invalid salt"` when malformed) and emits
the prefix followed by the Blowfish digest.  The Blowfish digest itself
is kept abstract as the `digest` parameter. -/

/-- The bcrypt base-64 alphabet used in salts and digests. -/
def bcryptAlphabet : List Char :=
  "./ABCDEFGHIJKLMNOPQRSTUVWXYZabcdefghijklmnopqrstuvwxyz0123456789".data

/-- A parsed bcrypt salt: version minor letter, cost factor, 22 salt
characters. -/
structure BSalt where
  minor : Char
  cost : Nat
  chars : List Char
  deriving DecidableEq, Repr

/-- Validity of a salt per the bcrypt format: minor in {a,b,x,y}, cost
between 4 and 31, exactly 22 characters from the bcrypt alphabet. -/
def BSalt.valid (s : BSalt) : Prop :=
  s.minor ∈ ['a', 'b', 'x', 'y'] ∧ 4 ≤ s.cost ∧ s.cost ≤ 31 ∧
    s.chars.length = 22 ∧ ∀ c ∈ s.chars, c ∈ bcryptAlphabet

instance (s : BSalt) : Decidable s.valid := by
  unfold BSalt.valid; infer_instance

/-- The decimal digit character for `n ≤ 9`. -/
def digitChar (n : Nat) : Char := Char.ofNat (48 + n)

/-- The character `$2<minor>$<d1><d2>$<22 salt chars>` prefix a salt is
serialized to inside a bcrypt digest string. -/
def encodeSaltPrefix (s : BSalt) : List Char :=
  '$' :: '2' :: s.minor :: '$' ::
    digitChar (s.cost / 10) :: digitChar (s.cost % 10) :: '$' :: s.chars

/-- Parse the salt prefix of a stored bcrypt digest, as `bcrypt.hashpw`
does with its salt argument; `none` models the `ValueError "Invalid
salt"` raised on malformed input. -/
def parseBcryptSalt (l : List Char) : Option BSalt :=
  match l with
  | a :: b :: m :: d1 :: c1 :: c2 :: d2 :: rest =>
    if a = '$' ∧ b = '2' ∧ d1 = '$' ∧ d2 = '$' ∧ m ∈ ['a', 'b', 'x', 'y'] ∧
        c1.isDigit ∧ c2.isDigit ∧
        4 ≤ (c1.toNat - 48) * 10 + (c2.toNat - 48) ∧
        (c1.toNat - 48) * 10 + (c2.toNat - 48) ≤ 31 ∧
        22 ≤ rest.length ∧ (∀ c ∈ rest.take 22, c ∈ bcryptAlphabet) then
      some ⟨m, (c1.toNat - 48) * 10 + (c2.toNat - 48), rest.take 22⟩
    else none
  | _ => none

/-- `bcrypt.hashpw` on an already-parsed salt: the password is truncated
to 72 bytes, digested with the (abstract) Blowfish-based `digest`, and
the output embeds the serialized salt prefix. -/
def hashpwBytes (digest : List Nat → BSalt → List Char)
    (password : List Nat) (s : BSalt) : List Char :=
  encodeSaltPrefix s ++ digest (password.take 72) s

/-- `bcrypt.checkpw password stored`: re-hash with the salt parsed from
`stored` and compare.  `Except.error` models the `ValueError`s raised on
NUL bytes in the password and on a malformed stored salt. -/
def checkpwBytes (digest : List Nat → BSalt → List Char)
    (password : List Nat) (stored : List Char) : Except String Bool :=
  if password.contains 0 then
    .error "password may not contain NUL bytes"
  else
    match parseBcryptSalt stored with
    | none => .error "Invalid salt"
    | some s => .ok (hashpwBytes digest password s == stored)

/-- `auth.hash_password` (auth.py:31-41): UTF-8 encode, hash with a
freshly generated salt (`bcrypt.gensalt()`, modelled as the explicit
`salt` argument carrying the per-call randomness), decode to `String`. -/
def hash_password (digest : List Nat → BSalt → List Char)
    (salt : BSalt) (password : String) : String :=
  ⟨hashpwBytes digest (utf8Bytes password) salt⟩

/-- `auth.verify_password` (auth.py:44-52): UTF-8 encode both arguments
and call `bcrypt.checkpw` — any `ValueError` from bcrypt propagates to
the caller uncaught. -/
def verify_password (digest : List Nat → BSalt → List Char)
    (plain hashed : String) : Except String Bool :=
  checkpwBytes digest (utf8Bytes plain) hashed.data

/-- A concrete stand-in instance for the abstract Blowfish digest, used
only to evaluate the model on concrete inputs: 31 alphabet characters
derived from a rolling checksum of the truncated password and salt. -/
def demoDigest (pw : List Nat) (s : BSalt) : List Char :=
  let seed := pw.foldl (fun a b => (a * 131 + b) % 4096) (s.cost % 64) +
    (s.chars.map Char.toNat).foldl (fun a b => (a + b) % 64) 0
  (List.range 31).map (fun i => bcryptAlphabet.getD ((seed + i * 7) % 64) '.')

/-- A concrete well-formed salt for evaluating the model. -/
def demoSalt : BSalt := ⟨'b', 12, "abcdefghijklmnopqrstuv".data⟩

/-- A second concrete well-formed salt, differing from `demoSalt` in its
salt characters. -/
def demoSalt2 : BSalt := ⟨'b', 12, "AAAAAAAAAAAAAAAAAAAAAA".data⟩

/-- A string of `n` repeated `a` characters (one UTF-8 byte each). -/
def aRun (n : Nat) : String := ⟨List.replicate n 'a'⟩

/-! ## JWT model (`auth.py` token functions, via `python-jose`)

A JSON claim value is a string or an integer (the payloads built by
`create_user_token` only contain these).  A Python dict with string keys
is an association list with unique keys kept in insertion order;
`dict.update` replaces in place or appends.  A token on the wire is
either a structurally well-formed JWT (header algorithm, payload,
signature) or garbage; the HMAC-SHA256 primitive is abstracted as the
`mac` parameter. -/

/-- A JSON claim value appearing in a token payload. -/
inductive JVal where
  | s (v : String)
  | n (v : Nat)
  deriving DecidableEq, Repr

/-- A claims dictionary: association list in insertion order. -/
abbrev Claims := List (String × JVal)

/-- Python `d.get(k)`: first (only) binding of `k`. -/
def dictGet (d : Claims) (k : String) : Option JVal :=
  (d.find? (fun p => p.1 == k)).map (fun p => p.2)

/-- Python `d.update({k: v})`: replace the binding of `k` in place if
present, else append it. -/
def dictSet (d : Claims) (k : String) (v : JVal) : Claims :=
  if d.any (fun p => p.1 == k) then
    d.map (fun p => if p.1 == k then (k, v) else p)
  else d ++ [(k, v)]

/-- The abstract HMAC primitive: key, algorithm name, payload ↦
signature value. -/
abbrev MacT := String → String → Claims → Nat

/-- A structurally well-formed JWT. -/
structure Jwt where
  alg : String
  payload : Claims
  sig : Nat
  deriving DecidableEq, Repr

/-- A token string on the wire: either a well-formed JWT or garbage that
fails JWS parsing. -/
inductive TokenWire where
  | wf (j : Jwt)
  | malformed (s : String)
  deriving DecidableEq, Repr

/-- `jose.jwt.encode(payload, key, algorithm)`: serialize and sign. -/
def jwtEncode (mac : MacT) (key alg : String) (payload : Claims) : Jwt :=
  ⟨alg, payload, mac key alg payload⟩

/-- `jose.jwt.decode(token, key, algorithms=allowed)` at wall-clock
`now` (seconds): `none` models every `JWTError` — malformed structure,
disallowed algorithm, bad signature, non-numeric `exp` claim, expiry
(`exp < now`, zero leeway). -/
def jwtDecode (mac : MacT) (key : String) (allowed : List String)
    (now : Nat) : TokenWire → Option Claims
  | .malformed _ => none
  | .wf j =>
    if ¬ allowed.contains j.alg then none
    else if j.sig ≠ mac key j.alg j.payload then none
    else
      match dictGet j.payload "exp" with
      | some (.n e) => if e < now then none else some j.payload
      | some (.s _) => none
      | none => some j.payload

/-- auth.py:16-18: module constants. -/
def SECRET_KEY : String := "fallback-key-for-dev-only"

def ALGORITHM : String := "HS256"

def ACCESS_TOKEN_EXPIRE_MINUTES : Nat := 60 * 24

/-- `auth.create_access_token` (auth.py:58-68): copy `data`, set the
`exp` claim to `now + expires_delta` (default: the 24-hour TTL), sign
with the process secret.  `now` and `expiresDelta` are in seconds. -/
def create_access_token (mac : MacT) (now : Nat) (data : Claims)
    (expiresDelta : Option Nat) : TokenWire :=
  .wf (jwtEncode mac SECRET_KEY ALGORITHM
    (dictSet data "exp" (.n (now + expiresDelta.getD (ACCESS_TOKEN_EXPIRE_MINUTES * 60)))))

/-- `auth.decode_token` (auth.py:71-77): decode with the process secret
and `[ALGORITHM]`; every `JWTError` is caught and becomes `none`. -/
def decode_token (mac : MacT) (now : Nat) (token : TokenWire) : Option Claims :=
  jwtDecode mac SECRET_KEY [ALGORITHM] now token

/-! ## Data records (`models.py`) and clock values -/

/-- A calendar date (`datetime.date`). -/
structure DateD where
  year : Nat
  month : Nat
  day : Nat
  deriving DecidableEq, Repr

/-- A timestamp (`datetime.datetime`), to minute precision — the finest
the code ever renders. -/
structure DateTimeD where
  date : DateD
  hour : Nat
  minute : Nat
  deriving DecidableEq, Repr

/-- `datetime.combine(d, time.min)`. -/
def combineMidnight (d : DateD) : DateTimeD := ⟨d, 0, 0⟩

/-- A row of the `users` table (models.py:8-27). -/
structure UserR where
  id : Nat
  name : String
  branch : String
  whatsapp : String
  personal_code : String
  email : String
  hashed_password : String
  role : String
  is_active : Bool
  created_at : DateTimeD
  last_login : Option DateTimeD
  deriving DecidableEq, Repr

/-- A row of the `tracks` table (models.py:33-50). -/
structure TrackR where
  id : Nat
  track_number : String
  status : String
  name : Option String
  branch : Option String
  whatsapp : Option String
  personal_code : Option String
  departure_date : Option DateD
  is_archived : Bool
  created_at : Option DateTimeD
  updated_at : DateTimeD
  deriving DecidableEq, Repr

/-- Python truthiness of an optional string: `None` and `""` are falsy. -/
def truthyStr : Option String → Bool
  | none => false
  | some s => ¬ s == ""

/-- An `HTTPException(status_code, detail)`. -/
structure HErr where
  status : Nat
  detail : String
  deriving DecidableEq, Repr

/-- auth.py:90-94: the 401 raised for every credential failure in
`get_current_user`. -/
def credentialsException : HErr := ⟨401, "Could not validate credentials"⟩

/-- `auth.get_current_user` (auth.py:83-113): decode the bearer token,
read the `sub` claim, re-resolve the user by email against the live
store, reject inactive users.  A non-string `sub` makes the email
lookup miss, landing in the same 401 as a missing claim. -/
def get_current_user (mac : MacT) (now : Nat) (users : List UserR)
    (token : TokenWire) : Except HErr UserR :=
  match decode_token mac now token with
  | none => .error credentialsException
  | some payload =>
    match dictGet payload "sub" with
    | none => .error credentialsException
    | some (.n _) => .error credentialsException
    | some (.s email) =>
      match users.find? (fun u => u.email == email) with
      | none => .error credentialsException
      | some user =>
        if ¬ user.is_active then .error ⟨400, "Inactive user"⟩
        else .ok user

/-- A concrete stand-in MAC for evaluating the model. -/
def demoMac : MacT := fun key alg payload =>
  (utf8Bytes key).sum * 3 + (utf8Bytes alg).sum * 5 + payload.length

/-! ## Track and user CRUD (`crud.py`)

The database is a list of rows; `db.commit()` on an ORM-mutated row
becomes replacement in the list; `IntegrityError` on commit becomes an
explicit uniqueness check against the constraint columns declared in
`models.py`. -/

/-- `crud.get_track_by_number` (crud.py:109-112). -/
def get_track_by_number (db : List TrackR) (track_number : String) : Option TrackR :=
  db.find? (fun t => t.track_number == track_number)

/-- Autoincrement primary key for a fresh row. -/
def freshTrackId (db : List TrackR) : Nat := (db.map TrackR.id).foldl max 0 + 1

/-- Commit of a mutation to the (unique) row with the given track
number. -/
def replaceTrack (db : List TrackR) (track_number : String) (t' : TrackR) : List TrackR :=
  db.map (fun t => if t.track_number == track_number then t' else t)

/-- `crud.assign_track_to_user` (crud.py:151-176): claim a track for a
personal code.  Present and truthily owned by a different code →
`ValueError` (the DB is untouched: the raise precedes any mutation);
present otherwise → set owner and `updated_at`; absent → insert a fresh
row with the stage-1 status, no departure date, the claimant as owner.
The first component of the result is the store after the call: on the
error path the raise precedes any mutation, so it is the input store. -/
def assign_track_to_user (now : DateTimeD) (db : List TrackR)
    (track_number personal_code : String) : List TrackR × Except String TrackR :=
  match get_track_by_number db track_number with
  | some track =>
    if truthyStr track.personal_code ∧ track.personal_code ≠ some personal_code then
      (db, .error ("Track " ++ track_number ++ " is already assigned to another client."))
    else
      let t' := { track with personal_code := some personal_code, updated_at := now }
      (replaceTrack db track_number t', .ok t')
  | none =>
    let newTrack : TrackR :=
      { id := freshTrackId db, track_number := track_number,
        status := "Дата регистрации клиентом", name := none, branch := none,
        whatsapp := none, personal_code := some personal_code,
        departure_date := none, is_archived := false,
        created_at := some now, updated_at := now }
    (db ++ [newTrack], .ok newTrack)

/-- `crud.create_or_update_track` (crud.py:124-148): admin upsert.
Present → overwrite status and departure date, clear the archived flag,
touch `updated_at`; absent → insert a fresh unassigned, unarchived
row. -/
def create_or_update_track (now : DateTimeD) (db : List TrackR)
    (track_number status : String) (departure_date : DateD) : List TrackR × TrackR :=
  match get_track_by_number db track_number with
  | some track =>
    let t' := { track with
      status := status
      departure_date := some departure_date
      is_archived := false
      updated_at := now }
    (replaceTrack db track_number t', t')
  | none =>
    let newTrack : TrackR :=
      { id := freshTrackId db, track_number := track_number, status := status,
        name := none, branch := none, whatsapp := none, personal_code := none,
        departure_date := some departure_date, is_archived := false,
        created_at := some now, updated_at := now }
    (db ++ [newTrack], newTrack)

/-- `crud.archive_track` (crud.py:179-188): set the archived flag. -/
def archive_track (now : DateTimeD) (db : List TrackR)
    (track_number : String) : List TrackR × Bool :=
  match get_track_by_number db track_number with
  | some track =>
    (replaceTrack db track_number
      { track with is_archived := true, updated_at := now }, true)
  | none => (db, false)

/-- SQLite `CAST(s AS INTEGER)` on a non-negative code: value of the
longest digit prefix, `0` when there is none. -/
def sqliteCastInt (s : String) : Nat :=
  (s.data.takeWhile Char.isDigit).foldl (fun a c => a * 10 + (c.toNat - 48)) 0

/-- `crud.get_next_personal_code` (crud.py:14-21): `max(CAST(code)) + 1`
over all users, `"1"` for an empty store. -/
def get_next_personal_code (db : List UserR) : String :=
  if db.isEmpty then "1"
  else toString ((db.map (fun u => sqliteCastInt u.personal_code)).foldl max 0 + 1)

/-- Autoincrement primary key for a fresh user row. -/
def freshUserId (db : List UserR) : Nat := (db.map UserR.id).foldl max 0 + 1

/-- The commit-time uniqueness constraints of `models.User` (models.py:
18-22): `whatsapp`, `personal_code` and `email` are unique columns. -/
def userConstraintViolation (db : List UserR) (email whatsapp code : String) : Bool :=
  db.any (fun u => u.email == email || u.whatsapp == whatsapp || u.personal_code == code)

/-- crud.py:40-41: a falsy `personal_code` argument is replaced with the
next sequential one. -/
def resolvedPersonalCode (db : List UserR) (personal_code : Option String) : String :=
  if truthyStr personal_code then personal_code.getD ""
  else get_next_personal_code db

/-- `crud.create_user` (crud.py:27-65): resolve a falsy personal code to
the next sequential one, hash the password (`hashFn` stands for
`hash_password` with its per-call salt), insert, commit.  An
`IntegrityError` rolls the insert back and surfaces as `ValueError`; the
returned store is then the unchanged input. -/
def create_user (hashFn : String → String) (now : DateTimeD) (db : List UserR)
    (email password name whatsapp branch : String)
    (personal_code : Option String) (role : String) :
    List UserR × Except String UserR :=
  let code := resolvedPersonalCode db personal_code
  let user : UserR :=
    { id := freshUserId db, name := name, branch := branch, whatsapp := whatsapp,
      personal_code := code, email := email, hashed_password := hashFn password,
      role := role, is_active := true, created_at := now, last_login := none }
  if userConstraintViolation db email whatsapp code then
    (db, .error "Email, WhatsApp, or personal code already exists.")
  else (db ++ [user], .ok user)

/-! ## Date arithmetic and formatting for the timeline -/

/-- Gregorian leap year. -/
def isLeapYear (y : Nat) : Bool := y % 4 == 0 && (y % 100 != 0 || y % 400 == 0)

/-- Days in a month. -/
def daysInMonth (y m : Nat) : Nat :=
  if m == 2 then (if isLeapYear y then 29 else 28)
  else if m == 4 || m == 6 || m == 9 || m == 11 then 30
  else 31

/-- The calendar successor of a date. -/
def nextDay (d : DateD) : DateD :=
  if d.day < daysInMonth d.year d.month then ⟨d.year, d.month, d.day + 1⟩
  else if d.month < 12 then ⟨d.year, d.month + 1, 1⟩
  else ⟨d.year + 1, 1, 1⟩

/-- `date + timedelta(days = n)`. -/
def addDays (d : DateD) (n : Nat) : DateD := Nat.iterate nextDay n d

/-- Two-digit zero-padded decimal. -/
def pad2 (n : Nat) : String := if n < 10 then "0" ++ toString n else toString n

/-- `strftime("%d.%m.%Y %H:%M")`. -/
def fmtDT (t : DateTimeD) : String :=
  pad2 t.date.day ++ "." ++ pad2 t.date.month ++ "." ++ toString t.date.year ++
    " " ++ pad2 t.hour ++ ":" ++ pad2 t.minute

/-! ## Timeline engine (`main.generate_track_timeline`, main.py:507-558) -/

/-- main.py:509-516: the fixed ordered stage vocabulary with day offsets
from the departure date. -/
def STATUS_FLOW : List (String × Nat) :=
  [("Дата регистрации клиентом", 0),
   ("Выехал из склада Китая", 0),
   ("В транзитном складе", 5),
   ("В Алматы (Склад)", 10),
   ("В Астане (Склад)", 10),
   ("Выдан клиенту", 15)]

/-- Index of the first stage whose label equals `st` (the
`next(i for i, flow in enumerate(STATUS_FLOW) if flow[0] == ...)`
generator). -/
def statusIndexAux (st : String) : List (String × Nat) → Option Nat
  | [] => none
  | f :: rest =>
    if f.1 == st then some 0 else (statusIndexAux st rest).map (· + 1)

/-- main.py:518-524: a falsy status falls back to the stage-1 label, and
a `StopIteration` (status not in the vocabulary) defaults the index
to 0. -/
def currentStatusIndex (status : String) : Nat :=
  (statusIndexAux (if status == "" then "Дата регистрации клиентом" else status)
    STATUS_FLOW).getD 0

/-- One entry of the generated timeline. -/
structure TimelineEvent where
  status : String
  date : String
  completed : Bool
  deriving DecidableEq, Repr

/-- `main.generate_track_timeline` (main.py:507-558) at wall-clock date
`today` (`datetime.now().date()`): six entries in vocabulary order; a
stage is completed iff its index is at most the current status index;
completed stages are dated by creation timestamp (stage index 0), the
exact departure date (index 1), or departure date plus offset
(indices ≥ 2), with `today` substituted for a missing departure date
and a missing creation timestamp; later stages show the placeholder. -/
def generate_track_timeline (today : DateD) (track : TrackR) : List TimelineEvent :=
  let idx := currentStatusIndex track.status
  let departureDateBase := track.departure_date.getD today
  STATUS_FLOW.enum.map (fun e =>
    let i := e.1
    let dateStr :=
      if i ≤ idx then
        if i == 0 then
          fmtDT (track.created_at.getD (combineMidnight today))
        else if i == 1 then
          fmtDT (combineMidnight (track.departure_date.getD today))
        else
          fmtDT (combineMidnight (addDays departureDateBase e.2.2))
      else "нет данных"
    ⟨e.2.1, dateStr, decide (i ≤ idx)⟩)

/-! ## Endpoint wrappers used by the claims (`main.py`)

Only the thin translation layers the claims mention are embedded: the
claim endpoint's 403/409 mapping and the ordered route table with its
dispatch rule. -/

/-- The successful response body of `assign_track_endpoint`, reduced to
the fields the claims inspect. -/
structure AssignResp where
  track_number : String
  status : String
  personal_code : Option String
  deriving DecidableEq, Repr

/-- `main.assign_track_endpoint` (main.py:631-659): non-admins may only
claim for their own personal code (403); a `ValueError` from
`crud.assign_track_to_user` becomes a 409 Conflict. -/
def assign_track_endpoint (now : DateTimeD) (currentUser : UserR)
    (db : List TrackR) (track_number personal_code : String) :
    List TrackR × Except HErr AssignResp :=
  if currentUser.role ≠ "admin" ∧ currentUser.personal_code ≠ personal_code then
    (db, .error ⟨403, "You can only assign tracks to yourself"⟩)
  else
    match assign_track_to_user now db track_number personal_code with
    | (_, .error e) => (db, .error ⟨409, e⟩)
    | (db', .ok t) => (db', .ok ⟨t.track_number, t.status, t.personal_code⟩)

/-! ## The FastAPI route table (`main.py`, registration order)

Starlette dispatches a request to the **first** registered route whose
method and path match; later registrations of the same method and path
pattern are shadowed dead code.  `main.py` registers several endpoints
twice (a second copy of the same path appears lower in the file, some of
those copies without the authentication dependency); the table below
lists every `@app.<method>` registration in source order.
`adminOnly` records a `Depends(auth.require_admin)` parameter;
`removesTrack` records that the handler body deletes `Track` rows
(`session.delete(track)`). -/

/-- One registered route. -/
structure RouteR where
  method : String
  pattern : String
  adminOnly : Bool
  removesTrack : Bool
  deriving DecidableEq, Repr

/-- Every route registration of `main.py`, in source (= registration)
order, with its source line. -/
def routesTable : List RouteR := [
  ⟨"GET", "/", false, false⟩,                                        -- main.py:78
  ⟨"GET", "/admin", false, false⟩,                                   -- main.py:87
  ⟨"GET", "/login", false, false⟩,                                   -- main.py:96
  ⟨"GET", "/health", false, false⟩,                                  -- main.py:109
  ⟨"POST", "/api/auth/register", false, false⟩,                      -- main.py:129
  ⟨"POST", "/api/auth/login", false, false⟩,                         -- main.py:153
  ⟨"GET", "/api/auth/me", false, false⟩,                             -- main.py:203
  ⟨"POST", "/api/auth/change-password", false, false⟩,               -- main.py:215
  ⟨"POST", "/api/admin/users/{user_id}/reset-password", true, false⟩,    -- main.py:261
  ⟨"POST", "/api/admin/users/{user_id}/generate-password", true, false⟩, -- main.py:293
  ⟨"POST", "/api/users", true, false⟩,                               -- main.py:335
  ⟨"GET", "/api/users", true, false⟩,                                -- main.py:375
  ⟨"DELETE", "/api/users/{user_id}", true, false⟩,                   -- main.py:396
  ⟨"POST", "/api/users", true, false⟩,                               -- main.py:422
  ⟨"GET", "/api/users", true, false⟩,                                -- main.py:463
  ⟨"DELETE", "/api/users/{user_id}", true, false⟩,                   -- main.py:484
  ⟨"GET", "/api/tracks/search/{track_number}", false, false⟩,        -- main.py:564
  ⟨"GET", "/api/users/{personal_code}/tracks", false, false⟩,        -- main.py:588
  ⟨"GET", "/api/users/{personal_code}/tracks/archived", false, false⟩,   -- main.py:608
  ⟨"POST", "/api/tracks/assign", false, false⟩,                      -- main.py:631
  ⟨"POST", "/api/tracks/archive/{track_number}", false, false⟩,      -- main.py:662
  ⟨"POST", "/api/tracks", true, false⟩,                              -- main.py:682
  ⟨"POST", "/api/auth/change-password", false, false⟩,               -- main.py:753
  ⟨"POST", "/api/admin/users/{user_id}/reset-password", true, false⟩,    -- main.py:797
  ⟨"POST", "/api/admin/users/{user_id}/generate-password", true, false⟩, -- main.py:829
  ⟨"PUT", "/api/admin/tracks/{track_number}/status", true, false⟩,   -- main.py:871
  ⟨"DELETE", "/api/admin/tracks/{track_number}", true, true⟩,        -- main.py:896
  ⟨"POST", "/api/admin/scanner/validate", true, false⟩,              -- main.py:917
  ⟨"POST", "/api/admin/scanner/deliver", true, false⟩,               -- main.py:952
  ⟨"POST", "/api/admin/scanner/delete", true, true⟩,                 -- main.py:982
  ⟨"GET", "/api/admin/tracks-by-date", true, false⟩,                 -- main.py:1015
  ⟨"POST", "/api/admin/batch-update-status", true, false⟩,           -- main.py:1049
  ⟨"PUT", "/api/admin/tracks/{track_number}/status", false, false⟩,  -- main.py:1087
  ⟨"DELETE", "/api/admin/tracks/{track_number}", false, true⟩,       -- main.py:1111
  ⟨"POST", "/api/admin/scanner/validate", false, false⟩,             -- main.py:1128
  ⟨"POST", "/api/admin/scanner/deliver", false, false⟩,              -- main.py:1163
  ⟨"POST", "/api/admin/scanner/delete", false, true⟩,                -- main.py:1192
  ⟨"GET", "/api/admin/tracks-by-date", true, false⟩,                 -- main.py:1223
  ⟨"POST", "/api/admin/batch-update-status", true, false⟩]           -- main.py:1261

/-- A route handles a request iff method and path pattern match. -/
def routeMatch (method pattern : String) (r : RouteR) : Bool :=
  r.method == method && r.pattern == pattern

/-- Starlette dispatch: the first registered matching route handles the
request. -/
def dispatchRoute (method pattern : String) : Option RouteR :=
  routesTable.find? (routeMatch method pattern)

/-! ## Concrete fixtures for witnesses -/

/-- A concrete wall-clock instant. -/
def demoNow : DateTimeD := ⟨⟨2024, 1, 5⟩, 12, 0⟩

/-- An archived track owned by client 106. -/
def demoOwnedArchivedTrack : TrackR :=
  { id := 1, track_number := "KZ123", status := "В транзитном складе",
    name := none, branch := none, whatsapp := none,
    personal_code := some "106", departure_date := some ⟨2024, 1, 1⟩,
    is_archived := true, created_at := some ⟨⟨2023, 12, 20⟩, 10, 30⟩,
    updated_at := ⟨⟨2024, 1, 2⟩, 8, 15⟩ }

/-- An existing client principal. -/
def demoUser1 : UserR :=
  { id := 1, name := "A", branch := "Almaty", whatsapp := "777",
    personal_code := "106", email := "a@b.c", hashed_password := "h",
    role := "client", is_active := true, created_at := demoNow,
    last_login := none }

/-- A principal store holding only `demoUser1`. -/
def demoUserDb : List UserR := [demoUser1]

/-- An inactive principal sharing `demoUser1`'s identity values. -/
def demoInactiveUser : UserR := { demoUser1 with is_active := false }

/-- The spec's concrete timeline example: status at stage index 3,
departure 2024-01-01, created 2023-12-20 10:30. -/
def demoTimelineTrack : TrackR :=
  { id := 7, track_number := "KZ777", status := "В Алматы (Склад)",
    name := none, branch := none, whatsapp := none, personal_code := some "106",
    departure_date := some ⟨2024, 1, 1⟩, is_archived := false,
    created_at := some ⟨⟨2023, 12, 20⟩, 10, 30⟩, updated_at := demoNow }

/-! ## Theorems -/

/-- C8: `create_or_update_track` on an existing track — archived or
not, owned or not — overwrites its status and departure date and clears
the archived flag; on an absent track number it creates the record
unarchived and unowned. -/
theorem upsert_admin_record_overwrites_and_unarchives
    (now : DateTimeD) (db : List TrackR) (tn st : String) (dep : DateD) :
    (∀ t, get_track_by_number db tn = some t →
      ∃ t', create_or_update_track now db tn st dep = (replaceTrack db tn t', t') ∧
        t'.status = st ∧ t'.departure_date = some dep ∧ t'.is_archived = false) ∧
    (get_track_by_number db tn = none →
      ∃ t', create_or_update_track now db tn st dep = (db ++ [t'], t') ∧
        t'.status = st ∧ t'.departure_date = some dep ∧ t'.is_archived = false ∧
        t'.personal_code = none) := by
  constructor
  · intro t ht
    refine ⟨{ t with
      status := st
      departure_date := some dep
      is_archived := false
      updated_at := now }, ?_⟩
    simp [create_or_update_track, ht]
  · intro ht
    refine ⟨{ id := freshTrackId db
              track_number := tn
              status := st
              name := none
              branch := none
              whatsapp := none
              personal_code := none
              departure_date := some dep
              is_archived := false
              created_at := some now
              updated_at := now }, ?_, rfl, rfl, rfl, rfl⟩
    simp [create_or_update_track, ht]

/-- Witness for C8: upserting the previously archived, client-owned
track `KZ123` clears its archived flag. -/
theorem upsert_admin_record_overwrites_and_unarchives_witness :
    (create_or_update_track demoNow [demoOwnedArchivedTrack]
      "KZ123" "Выдан клиенту" ⟨2024, 1, 10⟩).2.is_archived = false := by
  obtain ⟨t', heq, -, -, harch⟩ :=
    (upsert_admin_record_overwrites_and_unarchives demoNow [demoOwnedArchivedTrack]
      "KZ123" "Выдан клиенту" ⟨2024, 1, 10⟩).1 demoOwnedArchivedTrack (by rfl)
  rw [heq]
  exact harch

/-- C10: the admin upsert on an existing track is frame-preserving —
the owning personal code, track number, creation timestamp, primary key
and the legacy name/branch/whatsapp columns are untouched, rows with
other track numbers are untouched, and only the matched row is
replaced. -/
theorem upsert_admin_record_frame
    (now : DateTimeD) (db : List TrackR) (tn st : String) (dep : DateD)
    (t : TrackR) (ht : get_track_by_number db tn = some t) :
    ∃ t', create_or_update_track now db tn st dep = (replaceTrack db tn t', t') ∧
      t'.personal_code = t.personal_code ∧ t'.track_number = t.track_number ∧
      t'.created_at = t.created_at ∧ t'.id = t.id ∧ t'.name = t.name ∧
      t'.branch = t.branch ∧ t'.whatsapp = t.whatsapp ∧
      ∀ u ∈ db, u.track_number ≠ tn → u ∈ (create_or_update_track now db tn st dep).1 := by
  refine ⟨{ t with
    status := st
    departure_date := some dep
    is_archived := false
    updated_at := now }, by simp [create_or_update_track, ht], rfl, rfl, rfl, rfl, rfl,
      rfl, rfl, ?_⟩
  intro u hu hne
  have hbeq : (u.track_number == tn) = false := by simpa using hne
  simp only [create_or_update_track, ht, replaceTrack, List.mem_map]
  exact ⟨u, hu, by simp [hbeq]⟩

/-- Witness for C10: the admin upsert keeps the existing owner `106`. -/
theorem upsert_admin_record_frame_witness :
    (create_or_update_track demoNow [demoOwnedArchivedTrack]
      "KZ123" "Выдан клиенту" ⟨2024, 1, 10⟩).2.personal_code = some "106" := by
  obtain ⟨t', heq, hpc, -, -, -, -, -, -, -⟩ :=
    upsert_admin_record_frame demoNow [demoOwnedArchivedTrack] "KZ123"
      "Выдан клиенту" ⟨2024, 1, 10⟩ demoOwnedArchivedTrack (by rfl)
  rw [heq]
  exact hpc

/-- C6: case analysis of the claim operation.  Absent track → created
with the stage-1 status and the claimant as owner; present and unowned →
owner assigned; present and owned by the same code → succeeds again with
the same owner; present and owned by a different (non-empty) code → the
`ValueError` surfaces, the store is unchanged, the existing owner
survives, and the HTTP endpoint maps the failure to a 409 Conflict. -/
theorem assign_track_cases (now : DateTimeD) (db : List TrackR)
    (tn code : String) :
    (get_track_by_number db tn = none →
      ∃ t, assign_track_to_user now db tn code = (db ++ [t], .ok t) ∧
        t.status = "Дата регистрации клиентом" ∧ t.personal_code = some code ∧
        t.track_number = tn) ∧
    (∀ t, get_track_by_number db tn = some t → t.personal_code = none →
      ∃ t', assign_track_to_user now db tn code = (replaceTrack db tn t', .ok t') ∧
        t'.personal_code = some code) ∧
    (∀ t, get_track_by_number db tn = some t → t.personal_code = some code →
      ∃ t', assign_track_to_user now db tn code = (replaceTrack db tn t', .ok t') ∧
        t'.personal_code = some code) ∧
    (∀ t c, get_track_by_number db tn = some t → t.personal_code = some c →
      c ≠ "" → c ≠ code →
      assign_track_to_user now db tn code =
        (db, .error ("Track " ++ tn ++ " is already assigned to another client.")) ∧
      get_track_by_number db tn = some t ∧
      ∀ u, u.personal_code = code →
        assign_track_endpoint now u db tn code =
          (db, .error ⟨409, "Track " ++ tn ++ " is already assigned to another client."⟩)) := by
  refine ⟨?_, ?_, ?_, ?_⟩
  · intro ht
    refine ⟨{ id := freshTrackId db
              track_number := tn
              status := "Дата регистрации клиентом"
              name := none
              branch := none
              whatsapp := none
              personal_code := some code
              departure_date := none
              is_archived := false
              created_at := some now
              updated_at := now }, ?_, rfl, rfl, rfl⟩
    simp [assign_track_to_user, ht]
  · intro t ht hpc
    refine ⟨{ t with personal_code := some code, updated_at := now }, ?_, rfl⟩
    simp [assign_track_to_user, ht, hpc, truthyStr]
  · intro t ht hpc
    refine ⟨{ t with personal_code := some code, updated_at := now }, ?_, rfl⟩
    simp only [assign_track_to_user, ht]
    rw [if_neg]
    simp [hpc]
  · intro t c ht hpc hc hcc
    have hcond : truthyStr t.personal_code ∧ t.personal_code ≠ some code := by
      rw [hpc]
      exact ⟨by simpa [truthyStr] using hc, by simpa using hcc⟩
    have hmain : assign_track_to_user now db tn code =
        (db, .error ("Track " ++ tn ++ " is already assigned to another client.")) := by
      simp only [assign_track_to_user, ht]
      rw [if_pos hcond]
    refine ⟨hmain, ht, ?_⟩
    intro u hu
    simp only [assign_track_endpoint]
    rw [if_neg (by simp [hu]), hmain]

/-- Witness for C6: claiming the unclaimed `KZ123` by `106` on an empty
store succeeds with owner `106`; a follow-up claim by `107` on the
resulting store is a 409 Conflict that leaves the store unchanged. -/
theorem assign_track_cases_witness :
    (∃ t, assign_track_to_user demoNow [] "KZ123" "106" = ([t], .ok t) ∧
      t.personal_code = some "106") ∧
    ∀ u : UserR, u.personal_code = "107" →
      assign_track_endpoint demoNow u (assign_track_to_user demoNow [] "KZ123" "106").1
        "KZ123" "107" =
      ((assign_track_to_user demoNow [] "KZ123" "106").1,
        .error ⟨409, "Track KZ123 is already assigned to another client."⟩) := by
  obtain ⟨t, heq, hst, hpc, htn⟩ :=
    (assign_track_cases demoNow [] "KZ123" "106").1 (by rfl)
  constructor
  · exact ⟨t, by simpa using heq, hpc⟩
  · intro u hu
    obtain ⟨-, -, hep⟩ :=
      (assign_track_cases demoNow (assign_track_to_user demoNow [] "KZ123" "106").1
        "KZ123" "107").2.2.2 t "106"
        (by rw [heq]; simp [get_track_by_number, htn]) hpc
        (by decide) (by decide)
    exact hep u hu

/-- C9: user creation against a colliding unique value — email,
contact handle, or (resolved) personal code — fails with the
`ValueError` and leaves the principal store unchanged; with no
collision, the created principal carries all three values, each distinct
from every existing principal's. -/
theorem create_user_unique_or_fails (hashFn : String → String) (now : DateTimeD)
    (db : List UserR) (email password name whatsapp branch : String)
    (pcode : Option String) (role : String) :
    ((∃ u ∈ db, u.email = email ∨ u.whatsapp = whatsapp ∨
        u.personal_code = resolvedPersonalCode db pcode) →
      create_user hashFn now db email password name whatsapp branch pcode role =
        (db, .error "Email, WhatsApp, or personal code already exists.")) ∧
    ((∀ u ∈ db, u.email ≠ email ∧ u.whatsapp ≠ whatsapp ∧
        u.personal_code ≠ resolvedPersonalCode db pcode) →
      ∃ u, create_user hashFn now db email password name whatsapp branch pcode role =
          (db ++ [u], .ok u) ∧
        u.email = email ∧ u.whatsapp = whatsapp ∧
        u.personal_code = resolvedPersonalCode db pcode ∧
        ∀ v ∈ db, v.email ≠ u.email ∧ v.whatsapp ≠ u.whatsapp ∧
          v.personal_code ≠ u.personal_code) := by
  constructor
  · intro h
    have hv : userConstraintViolation db email whatsapp
        (resolvedPersonalCode db pcode) = true := by
      simp only [userConstraintViolation, List.any_eq_true]
      obtain ⟨u, hu, hcase⟩ := h
      exact ⟨u, hu, by simpa [or_assoc] using hcase⟩
    simp [create_user, hv]
  · intro h
    have hv : userConstraintViolation db email whatsapp
        (resolvedPersonalCode db pcode) = false := by
      simp only [userConstraintViolation]
      rw [List.any_eq_false]
      intro u hu
      have hne := h u hu
      simp [hne.1, hne.2.1, hne.2.2]
    refine ⟨{ id := freshUserId db
              name := name
              branch := branch
              whatsapp := whatsapp
              personal_code := resolvedPersonalCode db pcode
              email := email
              hashed_password := hashFn password
              role := role
              is_active := true
              created_at := now
              last_login := none }, by simp [create_user, hv], rfl, rfl, rfl, ?_⟩
    intro v hv2
    exact h v hv2

/-- Witness for C9: on a store holding only client `106`, creating a
user that reuses email `a@b.c` fails and leaves the store unchanged;
creating one with fresh values succeeds and carries them. -/
theorem create_user_unique_or_fails_witness :
    (create_user (fun p => p) demoNow demoUserDb
      "a@b.c" "pw" "B" "888" "Astana" (some "107") "client" =
      (demoUserDb, .error "Email, WhatsApp, or personal code already exists.")) ∧
    ∃ u, create_user (fun p => p) demoNow demoUserDb
      "d@e.f" "pw" "B" "888" "Astana" (some "107") "client" =
      (demoUserDb ++ [u], .ok u) ∧
      u.email = "d@e.f" ∧ u.personal_code = "107" := by
  constructor
  · exact (create_user_unique_or_fails (fun p => p) demoNow demoUserDb "a@b.c" "pw"
      "B" "888" "Astana" (some "107") "client").1
      ⟨demoUser1, List.mem_singleton_self _, Or.inl rfl⟩
  · obtain ⟨u, heq, hem, -, hpc, -⟩ :=
      (create_user_unique_or_fails (fun p => p) demoNow demoUserDb "d@e.f" "pw"
        "B" "888" "Astana" (some "107") "client").2 (by decide)
    exact ⟨u, heq, hem, by rw [hpc]; rfl⟩

/-- C5: under Starlette's first-match dispatch over the registration
order of `main.py`, every reachable handler that permanently removes
track records carries the admin-role dependency.  (The file registers a
second, authentication-free copy of the two deletion endpoints lower
down, but both duplicates are shadowed by the earlier admin-gated
registrations of the same method and path.) -/
theorem track_removal_requires_admin (method pattern : String) (r : RouteR)
    (h : dispatchRoute method pattern = some r)
    (hrem : r.removesTrack = true) : r.adminOnly = true := by
  have hq := List.find?_some h
  simp only [routeMatch, Bool.and_eq_true, beq_iff_eq] at hq
  obtain ⟨hm, hp⟩ := hq
  subst hm hp
  have hmem := List.mem_of_find?_eq_some h
  simp only [routesTable, List.mem_cons, List.not_mem_nil, or_false] at hmem
  rcases hmem with rfl|rfl|rfl|rfl|rfl|rfl|rfl|rfl|rfl|rfl|rfl|rfl|rfl|rfl|rfl|rfl|
    rfl|rfl|rfl|rfl|rfl|rfl|rfl|rfl|rfl|rfl|rfl|rfl|rfl|rfl|rfl|rfl|rfl|rfl|rfl|
    rfl|rfl|rfl|rfl
  all_goals first
    | rfl
    | exact absurd hrem (by decide)
    | exact absurd h (by decide)

/-- Witness for C5: the route that actually handles
`DELETE /api/admin/tracks/{track_number}` removes tracks and is
admin-only. -/
theorem track_removal_requires_admin_witness :
    RouteR.adminOnly ⟨"DELETE", "/api/admin/tracks/{track_number}", true, true⟩ = true :=
  track_removal_requires_admin "DELETE" "/api/admin/tracks/{track_number}"
    ⟨"DELETE", "/api/admin/tracks/{track_number}", true, true⟩ (by decide) rfl

/-- Updating a key in a claims dict and reading it back yields the new
value (map branch of `dictSet`). -/
theorem find?_map_set (d : Claims) (k : String) (v : JVal)
    (h : d.any (fun p => p.1 == k) = true) :
    (d.map (fun p => if p.1 == k then (k, v) else p)).find?
      (fun p => p.1 == k) = some (k, v) := by
  induction d with
  | nil => simp at h
  | cons a t ih =>
    by_cases ha : (a.1 == k) = true
    · simp only [List.map_cons, if_pos ha]
      rw [List.find?_cons_of_pos]
      simp
    · simp only [List.map_cons, if_neg ha]
      rw [List.find?_cons_of_neg _ (by simpa using ha)]
      exact ih (by simpa [List.any_cons, ha] using h)

/-- Appending a fresh key to a claims dict and reading it back yields
the new value (append branch of `dictSet`). -/
theorem find?_append_set (d : Claims) (k : String) (v : JVal)
    (h : d.any (fun p => p.1 == k) = false) :
    (d ++ [(k, v)]).find? (fun p => p.1 == k) = some (k, v) := by
  induction d with
  | nil =>
    rw [List.nil_append, List.find?_cons_of_pos]
    simp
  | cons a t ih =>
    rw [List.any_cons, Bool.or_eq_false_iff] at h
    rw [List.cons_append, List.find?_cons_of_neg _ (by simp [h.1])]
    exact ih h.2

/-- Reading back the key just set by `dictSet`. -/
theorem dictGet_dictSet_self (d : Claims) (k : String) (v : JVal) :
    dictGet (dictSet d k v) k = some v := by
  rw [dictGet, dictSet]
  by_cases h : d.any (fun p => p.1 == k) = true
  · rw [if_pos h, find?_map_set d k v h]
    rfl
  · rw [if_neg h, find?_append_set d k v (Bool.eq_false_iff.mpr h)]
    rfl

/-- C3: a token issued by `create_access_token` decodes, at any instant
strictly before its embedded expiry (issue time + 24 h), to exactly the
embedded claims — the original data with the `exp` claim set; strictly
after the expiry it decodes to the `None` sentinel; and a malformed
token, a token under any algorithm other than HS256, and a token whose
signature does not match the process secret all decode to the sentinel,
with no exception escaping `decode_token`. -/
theorem decode_token_ttl_and_rejections (mac : MacT) (data : Claims) (t now : Nat) :
    (now < t + 86400 →
      decode_token mac now (create_access_token mac t data none) =
        some (dictSet data "exp" (.n (t + 86400)))) ∧
    (t + 86400 < now →
      decode_token mac now (create_access_token mac t data none) = none) ∧
    (∀ s, decode_token mac now (.malformed s) = none) ∧
    (∀ j : Jwt, j.alg ≠ ALGORITHM → decode_token mac now (.wf j) = none) ∧
    (∀ j : Jwt, j.sig ≠ mac SECRET_KEY j.alg j.payload →
      decode_token mac now (.wf j) = none) := by
  have hnum : ACCESS_TOKEN_EXPIRE_MINUTES * 60 = 86400 := by
    norm_num [ACCESS_TOKEN_EXPIRE_MINUTES]
  refine ⟨?_, ?_, ?_, ?_, ?_⟩
  · intro h
    simp only [decode_token, create_access_token, jwtEncode, jwtDecode,
      Option.getD_none, hnum]
    rw [if_neg (by simp), if_neg (by simp), dictGet_dictSet_self]
    dsimp only
    rw [if_neg (by omega)]
  · intro h
    simp only [decode_token, create_access_token, jwtEncode, jwtDecode,
      Option.getD_none, hnum]
    rw [if_neg (by simp), if_neg (by simp), dictGet_dictSet_self]
    dsimp only
    rw [if_pos (by omega)]
  · intro s
    rfl
  · intro j hj
    simp only [decode_token, jwtDecode]
    rw [if_pos (by simpa [ALGORITHM] using hj)]
  · intro j hj
    simp only [decode_token, jwtDecode]
    by_cases halg : j.alg = ALGORITHM
    · rw [if_neg (by simp [halg, ALGORITHM]), if_pos hj]
    · rw [if_pos (by simpa [ALGORITHM] using halg)]

/-- Witness for C3: a concrete token issued at time 0 decodes to its
embedded claims at time 100, decodes to the sentinel at time 100000
(past the 24-hour TTL), and concrete malformed, wrong-algorithm and
wrong-signature tokens all decode to the sentinel. -/
theorem decode_token_ttl_and_rejections_witness :
    decode_token demoMac 100 (create_access_token demoMac 0 [("sub", JVal.s "a@b.c")] none) =
      some [("sub", JVal.s "a@b.c"), ("exp", JVal.n 86400)] ∧
    decode_token demoMac 100000 (create_access_token demoMac 0 [("sub", JVal.s "a@b.c")] none) =
      none ∧
    decode_token demoMac 100 (.malformed "not-a-jwt") = none ∧
    decode_token demoMac 100 (.wf ⟨"HS512", [("sub", JVal.s "a@b.c")], 0⟩) = none ∧
    decode_token demoMac 100
      (.wf ⟨"HS256", [], demoMac SECRET_KEY "HS256" [] + 1⟩) = none := by
  have h := decode_token_ttl_and_rejections demoMac [("sub", JVal.s "a@b.c")] 0 100
  refine ⟨?_, ?_, h.2.2.1 "not-a-jwt", ?_, ?_⟩
  · have h1 := h.1 (by omega)
    rw [h1]
    rfl
  · exact (decode_token_ttl_and_rejections demoMac [("sub", JVal.s "a@b.c")] 0
      100000).2.1 (by omega)
  · exact h.2.2.2.1 ⟨"HS512", [("sub", JVal.s "a@b.c")], 0⟩ (by decide)
  · exact h.2.2.2.2 ⟨"HS256", [], demoMac SECRET_KEY "HS256" [] + 1⟩ (by simp)

/-- Counterexample for C4 as stated: presenting a structurally valid,
correctly signed, non-expired token for the (inactive) principal
`a@b.c`, `get_current_user` rejects with HTTP status 400 ("Inactive
user"), which is neither the 401 Unauthenticated nor the 403 Forbidden
outcome the claim requires. -/
theorem inactive_user_rejected_with_400_not_401_403 :
    get_current_user demoMac 100 [demoInactiveUser]
      (create_access_token demoMac 0 [("sub", JVal.s "a@b.c")] none) =
      .error ⟨400, "Inactive user"⟩ ∧
    (400 : Nat) ≠ 401 ∧ (400 : Nat) ≠ 403 := by
  exact ⟨rfl, by decide, by decide⟩

/-- C4 (amended): whenever the token decodes (in particular it is
structurally valid, correctly signed and unexpired), its `sub` claim
resolves against the live principal store to a user whose current
active flag is false, `get_current_user` rejects with the distinguishable
HTTP 400 "Inactive user" outcome — the flag is re-read from the store,
for any token payload whatsoever, so no claim embedded in the token can
bypass the check. -/
theorem inactive_user_rejected_live (mac : MacT) (now : Nat)
    (users : List UserR) (token : TokenWire) (payload : Claims)
    (email : String) (u : UserR)
    (h1 : decode_token mac now token = some payload)
    (h2 : dictGet payload "sub" = some (.s email))
    (h3 : users.find? (fun x => x.email == email) = some u)
    (h4 : u.is_active = false) :
    get_current_user mac now users token = .error ⟨400, "Inactive user"⟩ := by
  simp [get_current_user, h1, h2, h3, h4]

/-- Witness for C4's amended theorem: the concrete inactive principal
with a concrete valid token is rejected with the 400 outcome. -/
theorem inactive_user_rejected_live_witness :
    get_current_user demoMac 50 [demoInactiveUser]
      (create_access_token demoMac 0 [("sub", JVal.s "a@b.c")] none) =
      .error ⟨400, "Inactive user"⟩ :=
  inactive_user_rejected_live demoMac 50 [demoInactiveUser]
    (create_access_token demoMac 0 [("sub", JVal.s "a@b.c")] none)
    [("sub", JVal.s "a@b.c"), ("exp", JVal.n 86400)] "a@b.c" demoInactiveUser
    (by decide) (by decide) (by decide) (by decide)

/-- The literal value of `STATUS_FLOW.map Prod.fst`. -/
theorem STATUS_FLOW_labels :
    STATUS_FLOW.map Prod.fst =
      ["Дата регистрации клиентом", "Выехал из склада Китая", "В транзитном складе",
       "В Алматы (Склад)", "В Астане (Склад)", "Выдан клиенту"] := rfl

/-- The literal value of `STATUS_FLOW.enum`. -/
theorem STATUS_FLOW_enum :
    STATUS_FLOW.enum =
      [(0, ("Дата регистрации клиентом", 0)), (1, ("Выехал из склада Китая", 0)),
       (2, ("В транзитном складе", 5)), (3, ("В Алматы (Склад)", 10)),
       (4, ("В Астане (Склад)", 10)), (5, ("Выдан клиенту", 15))] := rfl

/-- C7: for a track with a departure date and a creation timestamp the
timeline is always the six vocabulary stages in fixed order; stage `i`
is completed exactly when `i` is at most the current status index
(`currentStatusIndex`, which defaults an unrecognized or empty status
to 0); completed stages are dated by the creation timestamp (stage 1),
the exact departure date (stage 2), or departure date plus the 5/10/10/15
day offsets (stages 3-6); stages past the index show the placeholder.
On the spec's example — status at index 3, departure 2024-01-01 — the
result has exactly 4 completed entries, stage 3 dated 06.01.2024 and
stage 4 dated 11.01.2024, with stages 5-6 showing the placeholder. -/
theorem generate_track_timeline_spec (today : DateD) (track : TrackR)
    (d : DateD) (c : DateTimeD) (n : Nat)
    (hdep : track.departure_date = some d)
    (hc : track.created_at = some c)
    (hn : n = currentStatusIndex track.status) :
    (generate_track_timeline today track).length = 6 ∧
    (generate_track_timeline today track).map TimelineEvent.status =
      STATUS_FLOW.map Prod.fst ∧
    (∀ i, i < 6 → ((generate_track_timeline today track).get? i).map
      TimelineEvent.completed = some (decide (i ≤ n))) ∧
    ((generate_track_timeline today track).get? 0).map TimelineEvent.date =
      some (fmtDT c) ∧
    (1 ≤ n → ((generate_track_timeline today track).get? 1).map TimelineEvent.date =
      some (fmtDT (combineMidnight d))) ∧
    (2 ≤ n → ((generate_track_timeline today track).get? 2).map TimelineEvent.date =
      some (fmtDT (combineMidnight (addDays d 5)))) ∧
    (3 ≤ n → ((generate_track_timeline today track).get? 3).map TimelineEvent.date =
      some (fmtDT (combineMidnight (addDays d 10)))) ∧
    (4 ≤ n → ((generate_track_timeline today track).get? 4).map TimelineEvent.date =
      some (fmtDT (combineMidnight (addDays d 10)))) ∧
    (5 ≤ n → ((generate_track_timeline today track).get? 5).map TimelineEvent.date =
      some (fmtDT (combineMidnight (addDays d 15)))) ∧
    (∀ i, n < i → i < 6 → ((generate_track_timeline today track).get? i).map
      TimelineEvent.date = some "нет данных") ∧
    generate_track_timeline ⟨2024, 2, 1⟩ demoTimelineTrack =
      [⟨"Дата регистрации клиентом", "20.12.2023 10:30", true⟩,
       ⟨"Выехал из склада Китая", "01.01.2024 00:00", true⟩,
       ⟨"В транзитном складе", "06.01.2024 00:00", true⟩,
       ⟨"В Алматы (Склад)", "11.01.2024 00:00", true⟩,
       ⟨"В Астане (Склад)", "нет данных", false⟩,
       ⟨"Выдан клиенту", "нет данных", false⟩] ∧
    ((generate_track_timeline ⟨2024, 2, 1⟩ demoTimelineTrack).filter
      TimelineEvent.completed).length = 4 := by
  refine ⟨?_, ?_, ?_, ?_, ?_, ?_, ?_, ?_, ?_, ?_, ?_, ?_⟩
  · simp [generate_track_timeline, STATUS_FLOW_enum]
  · simp [generate_track_timeline, STATUS_FLOW_enum, STATUS_FLOW_labels]
  · intro i hi
    interval_cases i <;>
      simp [generate_track_timeline, STATUS_FLOW_enum, ← hn]
  · simp [generate_track_timeline, STATUS_FLOW_enum, ← hn, hc]
  · intro h
    simp [generate_track_timeline, STATUS_FLOW_enum, ← hn, hdep, h]
  · intro h
    simp [generate_track_timeline, STATUS_FLOW_enum, ← hn, hdep, h]
  · intro h
    simp [generate_track_timeline, STATUS_FLOW_enum, ← hn, hdep, h]
  · intro h
    simp [generate_track_timeline, STATUS_FLOW_enum, ← hn, hdep, h]
  · intro h
    simp [generate_track_timeline, STATUS_FLOW_enum, ← hn, hdep, h]
  · intro i h1 h2
    have h3 : ¬ (i ≤ n) := by omega
    interval_cases i <;>
      simp [generate_track_timeline, STATUS_FLOW_enum, ← hn, h3]
  · decide
  · decide

/-- Witness for C7: instantiating the timeline theorem on the example
track — the current status index is 3, all six completion flags follow
it, and the stage-3/stage-4 dates come out as 06.01.2024 and
11.01.2024. -/
theorem generate_track_timeline_spec_witness :
    ((generate_track_timeline ⟨2024, 2, 1⟩ demoTimelineTrack).get? 3).map
      TimelineEvent.date = some (fmtDT (combineMidnight (addDays ⟨2024, 1, 1⟩ 10))) ∧
    ((generate_track_timeline ⟨2024, 2, 1⟩ demoTimelineTrack).get? 5).map
      TimelineEvent.date = some "нет данных" := by
  obtain ⟨-, -, -, -, -, -, h3, -, -, h10, -, -⟩ :=
    generate_track_timeline_spec ⟨2024, 2, 1⟩ demoTimelineTrack ⟨2024, 1, 1⟩
      ⟨⟨2023, 12, 20⟩, 10, 30⟩ 3 rfl rfl (by decide)
  exact ⟨h3 (by decide), h10 5 (by decide) (by decide)⟩

/-- Digit characters are digits. -/
theorem digitChar_isDigit (n : Nat) (h : n ≤ 9) : (digitChar n).isDigit = true := by
  interval_cases n <;> decide

/-- Code point of a digit character. -/
theorem digitChar_toNat (n : Nat) (h : n ≤ 9) : (digitChar n).toNat = 48 + n := by
  interval_cases n <;> decide

/-- `bcrypt.hashpw` output parses back to the salt it embeds. -/
theorem parseBcryptSalt_hashpwBytes (digest : List Nat → BSalt → List Char)
    (pw : List Nat) (s : BSalt) (hv : s.valid) :
    parseBcryptSalt (hashpwBytes digest pw s) = some s := by
  obtain ⟨hm, h4, h31, hlen, halpha⟩ := hv
  have hq : s.cost / 10 ≤ 9 := by omega
  have hr : s.cost % 10 ≤ 9 := by omega
  have hval : ((digitChar (s.cost / 10)).toNat - 48) * 10 +
      ((digitChar (s.cost % 10)).toNat - 48) = s.cost := by
    rw [digitChar_toNat _ hq, digitChar_toNat _ hr]
    omega
  have htake : (s.chars ++ digest (pw.take 72) s).take 22 = s.chars := by
    rw [← hlen]
    exact List.take_left _ _
  simp only [hashpwBytes, encodeSaltPrefix, List.cons_append, parseBcryptSalt]
  rw [if_pos ⟨trivial, trivial, trivial, trivial, hm, digitChar_isDigit _ hq,
    digitChar_isDigit _ hr, by rw [hval]; exact h4, by rw [hval]; exact h31,
    by simp [hlen], by rw [htake]; exact halpha⟩]
  rw [hval, htake]

/-- C1 counterexample: on a stored string that is not a valid bcrypt
digest, `verify_password` does not return false — the underlying
`bcrypt.checkpw` raises `ValueError("Invalid salt")`, which nothing in
`auth.verify_password` catches. -/
theorem verify_password_raises_on_malformed_cex :
    verify_password demoDigest "password" "not-a-bcrypt-hash" =
      .error "Invalid salt" ∧
    ∀ b : Bool, verify_password demoDigest "password" "not-a-bcrypt-hash" ≠ .ok b := by
  refine ⟨by decide, ?_⟩
  intro b
  cases b <;> decide

/-- C1 (amended): `verify_password` totally characterized — it returns a
boolean for every stored string whose bcrypt salt prefix parses, and
raises `ValueError` (it does not return false) when the password holds a
NUL byte or the stored hash is malformed. -/
theorem verify_password_characterization (digest : List Nat → BSalt → List Char)
    (plain hashed : String) :
    ((utf8Bytes plain).contains 0 = true →
      verify_password digest plain hashed =
        .error "password may not contain NUL bytes") ∧
    ((utf8Bytes plain).contains 0 = false → parseBcryptSalt hashed.data = none →
      verify_password digest plain hashed = .error "Invalid salt") ∧
    (∀ s : BSalt, (utf8Bytes plain).contains 0 = false →
      parseBcryptSalt hashed.data = some s →
      verify_password digest plain hashed =
        .ok (hashpwBytes digest (utf8Bytes plain) s == hashed.data)) := by
  refine ⟨?_, ?_, ?_⟩
  · intro h
    unfold verify_password checkpwBytes
    rw [if_pos h]
  · intro h hp
    unfold verify_password checkpwBytes
    rw [if_neg (by simpa using h), hp]
  · intro s h hp
    unfold verify_password checkpwBytes
    rw [if_neg (by simpa using h), hp]

/-- Witness for C1's amended theorem: a NUL-carrying password raises the
NUL `ValueError`; a well-formed stored hash yields an `ok` boolean. -/
theorem verify_password_characterization_witness :
    verify_password demoDigest ⟨['a', Char.ofNat 0]⟩ "whatever" =
      .error "password may not contain NUL bytes" ∧
    verify_password demoDigest "pw" (hash_password demoDigest demoSalt "pw") =
      .ok (hashpwBytes demoDigest (utf8Bytes "pw") demoSalt ==
        (hash_password demoDigest demoSalt "pw").data) := by
  constructor
  · exact (verify_password_characterization demoDigest ⟨['a', Char.ofNat 0]⟩
      "whatever").1 (by decide)
  · exact (verify_password_characterization demoDigest "pw"
      (hash_password demoDigest demoSalt "pw")).2.2 demoSalt (by decide) (by decide)

set_option maxRecDepth 4096 in
/-- C2 counterexample: bcrypt truncates passwords to their first 72
bytes, so the distinct passwords of 73 and 72 repeated `a`s verify
against each other's hashes — `verify(p, hash(p2))` is true for p ≠ p2. -/
theorem verify_distinct_passwords_cex :
    aRun 73 ≠ aRun 72 ∧
    verify_password demoDigest (aRun 73)
      (hash_password demoDigest demoSalt (aRun 72)) = .ok true := by
  constructor
  · decide
  · decide

/-- C2 (amended): for NUL-free passwords, `verify(p, hash(p))` is true;
`verify(p, hash(p2))` is false exactly when the bcrypt digests of the
72-byte-truncated passwords differ (in particular it is true, not
false, whenever p and p2 share their first 72 bytes); and two hashes of
the same password under distinct salts — the randomized `gensalt()`
output — are different strings, since the salt is embedded in the
output. -/
theorem hash_verify_roundtrip_amended :
    (∀ (digest : List Nat → BSalt → List Char) (salt : BSalt) (p : String),
      salt.valid → (utf8Bytes p).contains 0 = false →
      verify_password digest p (hash_password digest salt p) = .ok true) ∧
    (∀ (digest : List Nat → BSalt → List Char) (salt : BSalt) (p p2 : String),
      salt.valid → (utf8Bytes p).contains 0 = false →
      digest ((utf8Bytes p).take 72) salt ≠ digest ((utf8Bytes p2).take 72) salt →
      verify_password digest p (hash_password digest salt p2) = .ok false) ∧
    (∀ (digest : List Nat → BSalt → List Char) (salt salt' : BSalt) (p : String),
      salt.valid → salt'.valid → salt.chars ≠ salt'.chars →
      hash_password digest salt p ≠ hash_password digest salt' p) := by
  refine ⟨?_, ?_, ?_⟩
  · intro digest salt p hv hnul
    unfold verify_password hash_password checkpwBytes
    rw [if_neg (by simpa using hnul)]
    rw [show (String.mk (hashpwBytes digest (utf8Bytes p) salt)).data =
      hashpwBytes digest (utf8Bytes p) salt from rfl]
    rw [parseBcryptSalt_hashpwBytes digest (utf8Bytes p) salt hv]
    simp
  · intro digest salt p p2 hv hnul hdig
    unfold verify_password hash_password checkpwBytes
    rw [if_neg (by simpa using hnul)]
    rw [show (String.mk (hashpwBytes digest (utf8Bytes p2) salt)).data =
      hashpwBytes digest (utf8Bytes p2) salt from rfl]
    rw [parseBcryptSalt_hashpwBytes digest (utf8Bytes p2) salt hv]
    have hne : hashpwBytes digest (utf8Bytes p) salt ≠
        hashpwBytes digest (utf8Bytes p2) salt := by
      intro heq
      exact hdig (List.append_cancel_left heq)
    simp [hashpwBytes] at hne ⊢
    exact hne
  · intro digest salt salt' p hv hv' hchars heq
    have hdata : hashpwBytes digest (utf8Bytes p) salt =
        hashpwBytes digest (utf8Bytes p) salt' := congrArg String.data heq
    unfold hashpwBytes at hdata
    have hlen : (encodeSaltPrefix salt).length = (encodeSaltPrefix salt').length := by
      simp [encodeSaltPrefix, hv.2.2.2.1, hv'.2.2.2.1]
    obtain ⟨hpre, -⟩ := List.append_inj hdata hlen
    simp only [encodeSaltPrefix, List.cons.injEq] at hpre
    exact hchars hpre.2.2.2.2.2.2.2

/-- Witness for C2's amended theorem: the round trip succeeds on a
concrete password, verification fails against a hash of a password with
a different digest, and hashing under the two concrete distinct salts
yields different strings. -/
theorem hash_verify_roundtrip_amended_witness :
    verify_password demoDigest "secret"
      (hash_password demoDigest demoSalt "secret") = .ok true ∧
    verify_password demoDigest "secret"
      (hash_password demoDigest demoSalt "other-pw") = .ok false ∧
    hash_password demoDigest demoSalt "secret" ≠
      hash_password demoDigest demoSalt2 "secret" := by
  refine ⟨?_, ?_, ?_⟩
  · exact hash_verify_roundtrip_amended.1 demoDigest demoSalt "secret"
      (by decide) (by decide)
  · exact hash_verify_roundtrip_amended.2.1 demoDigest demoSalt "secret" "other-pw"
      (by decide) (by decide) (by decide)
  · exact hash_verify_roundtrip_amended.2.2 demoDigest demoSalt demoSalt2 "secret"
      (by decide) (by decide) (by decide)
